import Mathlib

/-!
Shallow embedding of the landmark-processing pipeline of the `cam` repository:
the temporal Stabilizer (OneEuroFilter + KalmanFilter1D + Point3DFilter, from
the stabilizer module), the Densifier (from facial/js/renderer.js) and the
WaveMotionEngine (from 3DModels/js/waveEngine.js), together with theorems
checking the specification's claims against the embedded code.

Conventions of the embedding:
* JS numbers are modelled by `ℚ` (the source does exact closed-form float
  arithmetic; no float-rounding-sensitive claim is treated here).
* A JS field that may be `undefined`/`null` is an `Option`; the JS numeric
  coercion of `null`/`undefined` to `0` in arithmetic is `Option.getD _ 0`.
* A JS `Map` is an insertion-ordered association list: `Map.get` is the first
  match, `Map.set` replaces the first match in place or appends.
* A code path that throws a `TypeError` (dereferencing a missing landmark) is
  modelled by an `Option`-valued result, `none` standing for the exception.
-/

namespace Cam

/-! ## Association lists: the model of JS `Map` objects (insertion order). -/

/-- JS `Map.get`: first binding of the key, if any. -/
def lookupA {κ β : Type} [DecidableEq κ] : List (κ × β) → κ → Option β
  | [], _ => none
  | e :: rest, k => if e.1 = k then some e.2 else lookupA rest k

/-- JS `Map.set`: replace the first binding in place, else append (JS `Map`
keeps the original insertion position when overwriting a key). -/
def setA {κ β : Type} [DecidableEq κ] : List (κ × β) → κ → β → List (κ × β)
  | [], k, v => [(k, v)]
  | e :: rest, k, v => if e.1 = k then (k, v) :: rest else e :: setA rest k v

theorem lookupA_setA_self {κ β : Type} [DecidableEq κ]
    (l : List (κ × β)) (k : κ) (v : β) : lookupA (setA l k v) k = some v := by
  induction l with
  | nil => simp [setA, lookupA]
  | cons e rest ih =>
    by_cases h : e.1 = k
    · simp [setA, h, lookupA]
    · simp [setA, h, lookupA, ih]

theorem lookupA_setA_ne {κ β : Type} [DecidableEq κ]
    (l : List (κ × β)) (k k₂ : κ) (v : β) (h : k₂ ≠ k) :
    lookupA (setA l k v) k₂ = lookupA l k₂ := by
  have hne : ¬(k = k₂) := fun h2 => h h2.symm
  induction l with
  | nil => simp [setA, lookupA, hne]
  | cons e rest ih =>
    by_cases he : e.1 = k
    · subst he
      simp [setA, lookupA, hne, h]
    · by_cases he2 : e.1 = k₂ <;> simp [setA, he, lookupA, he2, ih, h]

/-! ## Numeric helpers shared by the pipeline. -/

/-- The IEEE-754 double `Math.PI` used by the source, as an exact rational
(shortest decimal that denotes that double). -/
def mathPi : ℚ := 3.141592653589793

/-- JS `p.z || 0`: an absent `z` coerces to `0` (a present `0` also gives `0`,
so only absence needs a default). -/
def zOr0 (z : Option ℚ) : ℚ := z.getD 0

/-- JS `p.visibility || 1`: absent or zero visibility coerces to `1`. -/
def vOr1 (v : Option ℚ) : ℚ :=
  match v with
  | none => 1
  | some x => if x = 0 then 1 else x

/-- The time delta used by both filter stages:
`Math.max((timestamp - tPrev) / 1000, 0.001)`. -/
def dtOf (timestamp tPrev : ℚ) : ℚ := max ((timestamp - tPrev) / 1000) 0.001

/-! ## OneEuroFilter (adaptive low-pass stage). -/

/-- State of a `OneEuroFilter` instance: the constructor parameters and the
per-update state (`null` in the constructor, hence `Option`). -/
structure OneEuroFilter where
  minCutoff : ℚ
  beta : ℚ
  dCutoff : ℚ
  xPrev : Option ℚ
  dxPrev : Option ℚ
  tPrev : Option ℚ
  deriving Repr, DecidableEq

/-- Constructor `new OneEuroFilter(minCutoff, beta, dCutoff)`. -/
def OneEuroFilter.mk0 (minCutoff beta dCutoff : ℚ) : OneEuroFilter :=
  { minCutoff := minCutoff, beta := beta, dCutoff := dCutoff
    xPrev := none, dxPrev := none, tPrev := none }

/-- Method `lowPass(x, xPrev, alpha)`: exponential smoothing. -/
def OneEuroFilter.lowPass (x xPrev alpha : ℚ) : ℚ :=
  alpha * x + (1 - alpha) * xPrev

/-- Method `alpha(cutoff, dt)`: smoothing coefficient from cutoff frequency. -/
def OneEuroFilter.alphaOf (cutoff dt : ℚ) : ℚ :=
  let tau := 1 / (2 * mathPi * cutoff)
  1 / (1 + tau / dt)

/-- Method `OneEuroFilter.filter(x, timestamp)`, returning the updated instance and
the filtered value. First call (`tPrev === null`) seeds state and returns the
raw value. -/
def OneEuroFilter.filter (s : OneEuroFilter) (x timestamp : ℚ) :
    OneEuroFilter × ℚ :=
  match s.tPrev with
  | none =>
    ({ s with xPrev := some x, dxPrev := some 0, tPrev := some timestamp }, x)
  | some tPrev =>
    let dt := dtOf timestamp tPrev
    let dx := (x - s.xPrev.getD 0) / dt
    let alphaDx := OneEuroFilter.alphaOf s.dCutoff dt
    let dxFiltered := OneEuroFilter.lowPass dx (s.dxPrev.getD 0) alphaDx
    let cutoff := s.minCutoff + s.beta * |dxFiltered|
    let alphaX := OneEuroFilter.alphaOf cutoff dt
    let xFiltered := OneEuroFilter.lowPass x (s.xPrev.getD 0) alphaX
    ({ s with tPrev := some timestamp, dxPrev := some dxFiltered,
              xPrev := some xFiltered }, xFiltered)

/-- Method `OneEuroFilter.reset()`. -/
def OneEuroFilter.reset (s : OneEuroFilter) : OneEuroFilter :=
  { s with xPrev := none, dxPrev := none, tPrev := none }

/-! ## KalmanFilter1D (predictive stage). -/

/-- State of a `KalmanFilter1D` instance. -/
structure KalmanFilter1D where
  Q : ℚ
  R : ℚ
  x : Option ℚ
  P : ℚ
  K : ℚ
  velocity : ℚ
  lastTimestamp : Option ℚ
  deriving Repr, DecidableEq

/-- Constructor `new KalmanFilter1D(processNoise, measurementNoise)`. -/
def KalmanFilter1D.mk0 (processNoise measurementNoise : ℚ) : KalmanFilter1D :=
  { Q := processNoise, R := measurementNoise
    x := none, P := 1, K := 0, velocity := 0, lastTimestamp := none }

/-- Method `KalmanFilter1D.update(measurement, timestamp)`: seed on first call,
otherwise predict, blend by the gain, and update the velocity estimate. -/
def KalmanFilter1D.update (s : KalmanFilter1D) (measurement timestamp : ℚ) :
    KalmanFilter1D × ℚ :=
  match s.x with
  | none =>
    ({ s with x := some measurement, lastTimestamp := some timestamp },
     measurement)
  | some xv =>
    let dt := dtOf timestamp (s.lastTimestamp.getD 0)
    let xPredicted := xv + s.velocity * dt
    let pPredicted := s.P + s.Q
    let gain := pPredicted / (pPredicted + s.R)
    let xNew := xPredicted + gain * (measurement - xPredicted)
    let pNew := (1 - gain) * pPredicted
    let vNew := (xNew - xPredicted) / dt * 0.5 + s.velocity * 0.5
    ({ s with lastTimestamp := some timestamp, x := some xNew, P := pNew,
              K := gain, velocity := vNew }, xNew)

/-- Method `KalmanFilter1D.predict(timestamp)`: extrapolate by the stored velocity,
`null` when the filter has no state. -/
def KalmanFilter1D.predict (s : KalmanFilter1D) (timestamp : ℚ) : Option ℚ :=
  match s.x with
  | none => none
  | some xv => some (xv + s.velocity * dtOf timestamp (s.lastTimestamp.getD 0))

/-- Method `KalmanFilter1D.reset()` (note: `K` is not reset by the source). -/
def KalmanFilter1D.reset (s : KalmanFilter1D) : KalmanFilter1D :=
  { s with x := none, P := 1, velocity := 0, lastTimestamp := none }

/-! ## Point3DFilter and the Stabilizer. -/

/-- The configuration record a `Point3DFilter` is constructed from (the
`config` object destructured in its constructor / built by the `Stabilizer`
constructor). -/
structure FilterConfig where
  minCutoff : ℚ
  beta : ℚ
  dCutoff : ℚ
  processNoise : ℚ
  measurementNoise : ℚ
  useKalman : Bool
  deriving Repr, DecidableEq

/-- The `Stabilizer` constructor's default configuration (each `config.foo ||
default` with no overrides, `useKalman !== false`). -/
def stabilizerDefaultConfig : FilterConfig :=
  { minCutoff := 0.8, beta := 0.005, dCutoff := 1
    processNoise := 0.005, measurementNoise := 0.05, useKalman := true }

/-- A dense point as it flows into the Stabilizer: the duck-typed JS object
with mandatory `x`,`y` and the optional fields the Densifier may attach.
Absent boolean flags read as `false` (JS truthiness). -/
structure DPoint where
  x : ℚ
  y : ℚ
  z : Option ℚ := none
  visibility : Option ℚ := none
  originalIndex : Option ℕ := none
  region : Option String := none
  interpolated : Bool := false
  surfaceU : Option ℚ := none
  surfaceV : Option ℚ := none
  depthLayer : Option ℕ := none
  handIndex : Option ℕ := none
  deriving Repr, DecidableEq

/-- The object returned by `Point3DFilter.filter` and stored in
`this.lastPoint`: `{x, y, z, visibility, predicted}`. The coordinates are
`Option` because the occlusion path builds them from `KalmanFilter1D.predict`,
which can be `null`. -/
structure FilteredPoint where
  x : Option ℚ
  y : Option ℚ
  z : Option ℚ
  visibility : ℚ
  predicted : Bool
  deriving Repr, DecidableEq

/-- State of a `Point3DFilter` instance: one `OneEuroFilter` and one
`KalmanFilter1D` per axis, the `useKalman` switch, the last emitted point and
the occlusion counter (`isOccluded` is set in the constructor and never
written again by the source). -/
structure Point3DFilter where
  euroX : OneEuroFilter
  euroY : OneEuroFilter
  euroZ : OneEuroFilter
  kalmanX : KalmanFilter1D
  kalmanY : KalmanFilter1D
  kalmanZ : KalmanFilter1D
  useKalman : Bool
  lastPoint : Option FilteredPoint
  isOccluded : Bool
  occlusionFrames : ℕ
  deriving Repr, DecidableEq

/-- Constructor `new Point3DFilter(config)`. -/
def Point3DFilter.mk0 (cfg : FilterConfig) : Point3DFilter :=
  { euroX := OneEuroFilter.mk0 cfg.minCutoff cfg.beta cfg.dCutoff
    euroY := OneEuroFilter.mk0 cfg.minCutoff cfg.beta cfg.dCutoff
    euroZ := OneEuroFilter.mk0 cfg.minCutoff cfg.beta cfg.dCutoff
    kalmanX := KalmanFilter1D.mk0 cfg.processNoise cfg.measurementNoise
    kalmanY := KalmanFilter1D.mk0 cfg.processNoise cfg.measurementNoise
    kalmanZ := KalmanFilter1D.mk0 cfg.processNoise cfg.measurementNoise
    useKalman := cfg.useKalman
    lastPoint := none, isOccluded := false, occlusionFrames := 0 }

/-- Method `Point3DFilter.reset()`: resets every per-axis filter, the last point and
the occlusion counter. -/
def Point3DFilter.reset (s : Point3DFilter) : Point3DFilter :=
  { s with euroX := s.euroX.reset, euroY := s.euroY.reset,
           euroZ := s.euroZ.reset,
           kalmanX := s.kalmanX.reset, kalmanY := s.kalmanY.reset,
           kalmanZ := s.kalmanZ.reset,
           lastPoint := none, occlusionFrames := 0 }

/-- Method `Point3DFilter.filter(point, timestamp)`: occlusion handling on a falsy
`point` (counter, Kalman prediction, reset past 10 misses), otherwise the
1€ stage per axis, optionally the Kalman stage on top, then record and return
the new `lastPoint`. Result: updated instance and the returned point
(`none` = JS `null`). -/
def Point3DFilter.filter (s : Point3DFilter) (point : Option DPoint)
    (timestamp : ℚ) : Point3DFilter × Option FilteredPoint :=
  match point with
  | none =>
    let oc := s.occlusionFrames + 1
    if 10 < oc then
      (s.reset, none)
    else
      let s1 := { s with occlusionFrames := oc }
      if s.useKalman ∧ s.lastPoint.isSome then
        (s1, some { x := s.kalmanX.predict timestamp
                    y := s.kalmanY.predict timestamp
                    z := s.kalmanZ.predict timestamp
                    visibility := 0.3, predicted := true })
      else
        (s1, s.lastPoint)
  | some p =>
    let s0 := { s with occlusionFrames := 0 }
    let ex := s.euroX.filter p.x timestamp
    let ey := s.euroY.filter p.y timestamp
    let ez := s.euroZ.filter (zOr0 p.z) timestamp
    let kx := if s.useKalman then s.kalmanX.update ex.2 timestamp
              else (s.kalmanX, ex.2)
    let ky := if s.useKalman then s.kalmanY.update ey.2 timestamp
              else (s.kalmanY, ey.2)
    let kz := if s.useKalman then s.kalmanZ.update ez.2 timestamp
              else (s.kalmanZ, ez.2)
    let lp : FilteredPoint :=
      { x := some kx.2, y := some ky.2, z := some kz.2
        visibility := vOr1 p.visibility, predicted := false }
    ({ s0 with euroX := ex.1, euroY := ey.1, euroZ := ez.1
               kalmanX := kx.1, kalmanY := ky.1, kalmanZ := kz.1
               lastPoint := some lp }, some lp)

/-- The stabilized output point: `{...point, x: filtered.x, y: filtered.y,
z: filtered.z, visibility: filtered.visibility, stabilized: true}`. Note the
`predicted` flag of the filtered point is not among the copied fields. -/
structure SPoint where
  x : Option ℚ
  y : Option ℚ
  z : Option ℚ
  visibility : ℚ
  originalIndex : Option ℕ
  region : Option String
  interpolated : Bool
  surfaceU : Option ℚ
  surfaceV : Option ℚ
  depthLayer : Option ℕ
  handIndex : Option ℕ
  stabilized : Bool
  deriving Repr, DecidableEq

/-- Build the spread-merged output point of `stabilizePoints`. -/
def mkSPoint (p : DPoint) (f : FilteredPoint) : SPoint :=
  { x := f.x, y := f.y, z := f.z, visibility := f.visibility
    originalIndex := p.originalIndex, region := p.region
    interpolated := p.interpolated, surfaceU := p.surfaceU
    surfaceV := p.surfaceV, depthLayer := p.depthLayer
    handIndex := p.handIndex, stabilized := true }

/-- The filter-bank key for the point at position `i`:
`prefix + (point.originalIndex !== undefined ? point.originalIndex : i)`. -/
def pointId (pre : String) (p : DPoint) (i : ℕ) : String :=
  pre ++ toString (p.originalIndex.getD i)

/-- The filter banks are JS `Map`s from id strings to `Point3DFilter`s. -/
abbrev FilterMap := List (String × Point3DFilter)

/-- Method `Stabilizer.getFilter(filterMap, id)`: lazily create the filter. Returns
the map (with the new filter inserted if it was absent) and the filter. -/
def getFilter (cfg : FilterConfig) (fm : FilterMap) (id : String) :
    FilterMap × Point3DFilter :=
  match lookupA fm id with
  | some f => (fm, f)
  | none =>
    let f := Point3DFilter.mk0 cfg
    (setA fm id f, f)

/-- The body of the `stabilizePoints` loop, threading the filter map; `i` is
the running array index. In-place mutation of the filter object is modelled by
writing the stepped filter back at its key. -/
def stabilizeLoop (cfg : FilterConfig) (timestamp : ℚ) (pre : String) :
    ℕ → List DPoint → FilterMap → FilterMap × List SPoint
  | _, [], fm => (fm, [])
  | i, p :: rest, fm =>
    let g := getFilter cfg fm (pointId pre p i)
    let step := g.2.filter (some p) timestamp
    let fm1 := setA g.1 (pointId pre p i) step.1
    let r := stabilizeLoop cfg timestamp pre (i + 1) rest fm1
    (r.1, match step.2 with
          | some f => mkSPoint p f :: r.2
          | none => r.2)

/-- Method `Stabilizer.stabilizePoints(points, filterMap, timestamp, prefix)`:
empty input short-circuits to `[]` with the filter map untouched. -/
def stabilizePoints (cfg : FilterConfig) (points : List DPoint)
    (fm : FilterMap) (timestamp : ℚ) (pre : String) :
    FilterMap × List SPoint :=
  match points with
  | [] => (fm, [])
  | _ => stabilizeLoop cfg timestamp pre 0 points fm

/-! ## Helper lemmas for the Stabilizer theorems. -/

/-- A present point always produces an output whose visibility is
`point.visibility || 1`, whatever the filter state. -/
theorem Point3DFilter.filter_some_visibility (s : Point3DFilter) (p : DPoint)
    (t : ℚ) : ∃ lp : FilteredPoint,
    (s.filter (some p) t).2 = some lp ∧ lp.visibility = vOr1 p.visibility := by
  refine ⟨_, rfl, rfl⟩

/-- The visibilities emitted by the `stabilizePoints` loop are exactly
`point.visibility || 1`, pointwise. -/
theorem stabilizeLoop_visibility (cfg : FilterConfig) (t : ℚ) (pre : String) :
    ∀ (points : List DPoint) (i : ℕ) (fm : FilterMap),
    ((stabilizeLoop cfg t pre i points fm).2.map SPoint.visibility) =
      points.map (fun p => vOr1 p.visibility) := by
  intro points
  induction points with
  | nil => intro i fm; simp [stabilizeLoop]
  | cons p rest ih =>
    intro i fm
    obtain ⟨lp, h1, h2⟩ :=
      Point3DFilter.filter_some_visibility
        (getFilter cfg fm (pointId pre p i)).2 p t
    simp [stabilizeLoop, h1, mkSPoint, h2, ih]

/-- A freshly constructed `Point3DFilter`, given a present point, emits the
raw coordinates unchanged (both stages are on their seeding branch). -/
theorem Point3DFilter.filter_fresh (cfg : FilterConfig) (p : DPoint)
    (t : ℚ) : ((Point3DFilter.mk0 cfg).filter (some p) t).2 =
    some { x := some p.x, y := some p.y, z := some (zOr0 p.z)
           visibility := vOr1 p.visibility, predicted := false } := by
  cases hk : cfg.useKalman <;>
    simp [Point3DFilter.mk0, Point3DFilter.filter, OneEuroFilter.mk0,
          OneEuroFilter.filter, KalmanFilter1D.mk0, KalmanFilter1D.update, hk]

/-! ## Claim theorems (first batch). -/

/-- C5: both filter stages compute their time delta through `dtOf`, which is
`max ((t - tPrev) / 1000) 0.001`; it is therefore at least `0.001`, strictly
positive and nonzero, so the divisions by `dt` in the derivative, gain and
prediction computations are never divisions by zero. (`OneEuroFilter.filter`
and `KalmanFilter1D.update` invoke `dtOf` definitionally.) -/
theorem dt_floored_positive :
    ∀ timestamp tPrev : ℚ,
      dtOf timestamp tPrev = max ((timestamp - tPrev) / 1000) 0.001 ∧
      (0.001 : ℚ) ≤ dtOf timestamp tPrev ∧
      0 < dtOf timestamp tPrev ∧ dtOf timestamp tPrev ≠ 0 := by
  intro t tp
  have hle : (0.001 : ℚ) ≤ dtOf t tp := le_max_right _ _
  have hpos : 0 < dtOf t tp := lt_of_lt_of_le (by norm_num) hle
  exact ⟨rfl, hle, hpos, ne_of_gt hpos⟩

/-- C2: on first observation, the adaptive low-pass stage returns the raw
value and seeds its state, the predictive stage returns the raw measurement
and seeds its state, and the Stabilizer's output coordinates for a fresh
`stableId` equal the raw input coordinates exactly. -/
theorem first_sample_passthrough
    (s₁ : OneEuroFilter) (x t : ℚ) (h₁ : s₁.tPrev = none)
    (s₂ : KalmanFilter1D) (m : ℚ) (h₂ : s₂.x = none)
    (cfg : FilterConfig) (fm : FilterMap) (pre : String) (p : DPoint)
    (zv : ℚ) (hz : p.z = some zv)
    (hfm : lookupA fm (pointId pre p 0) = none) :
    (s₁.filter x t).2 = x ∧
    (s₁.filter x t).1.xPrev = some x ∧
    (s₁.filter x t).1.dxPrev = some 0 ∧
    (s₁.filter x t).1.tPrev = some t ∧
    (s₂.update m t).2 = m ∧
    (s₂.update m t).1.x = some m ∧
    (s₂.update m t).1.lastTimestamp = some t ∧
    ∃ q : SPoint, (stabilizePoints cfg [p] fm t pre).2 = [q] ∧
      q.x = some p.x ∧ q.y = some p.y ∧ q.z = some zv := by
  refine ⟨?_, ?_, ?_, ?_, ?_, ?_, ?_, ?_⟩
  · simp [OneEuroFilter.filter, h₁]
  · simp [OneEuroFilter.filter, h₁]
  · simp [OneEuroFilter.filter, h₁]
  · simp [OneEuroFilter.filter, h₁]
  · simp [KalmanFilter1D.update, h₂]
  · simp [KalmanFilter1D.update, h₂]
  · simp [KalmanFilter1D.update, h₂]
  · have hout : (stabilizePoints cfg [p] fm t pre).2 =
        [mkSPoint p { x := some p.x, y := some p.y, z := some (zOr0 p.z)
                      visibility := vOr1 p.visibility, predicted := false }] := by
      simp [stabilizePoints, stabilizeLoop, getFilter, hfm,
            Point3DFilter.filter_fresh]
    exact ⟨_, hout, by simp [mkSPoint], by simp [mkSPoint],
           by simp [mkSPoint, zOr0, hz]⟩

/-- C10: for every point present in the Stabilizer's input, the emitted
visibility is `point.visibility || 1`: exactly `1` when the detector reported
`0`, `null` or nothing, and the input visibility when it is nonzero. -/
theorem visibility_reemitted_confident :
    ∀ (cfg : FilterConfig) (points : List DPoint) (fm : FilterMap)
      (t : ℚ) (pre : String),
    ((stabilizePoints cfg points fm t pre).2.map SPoint.visibility) =
      points.map (fun p => vOr1 p.visibility) ∧
    vOr1 none = 1 ∧ vOr1 (some 0) = 1 ∧
    ∀ v : ℚ, vOr1 (some v) = if v = 0 then 1 else v := by
  intro cfg points fm t pre
  refine ⟨?_, rfl, by simp [vOr1], fun v => rfl⟩
  match points with
  | [] => simp [stabilizePoints]
  | p :: rest =>
    simpa [stabilizePoints] using
      stabilizeLoop_visibility cfg t pre (p :: rest) 0 fm

/-! ## The Densifier (facial renderer module).

A group result is `{ points: [...], count: n }`. A code path that throws
(dereferencing a missing/out-of-range landmark inside `lerp` or
`computeCentroid`) is modelled by a `none` result. -/

structure GroupResult where
  points : List DPoint
  count : ℕ
  deriving Repr, DecidableEq

/-- The static body topology table (`defineBodyConnections`). -/
structure BodyConnections where
  spine : List (ℕ × ℕ)
  leftArm : List (ℕ × ℕ)
  rightArm : List (ℕ × ℕ)
  leftLeg : List (ℕ × ℕ)
  rightLeg : List (ℕ × ℕ)
  torso : List ℕ
  deriving Repr, DecidableEq

def defineBodyConnections : BodyConnections :=
  { spine := [(11, 12), (23, 24)]
    leftArm := [(11, 13), (13, 15)]
    rightArm := [(12, 14), (14, 16)]
    leftLeg := [(23, 25), (25, 27), (27, 31)]
    rightLeg := [(24, 26), (26, 28), (28, 32)]
    torso := [11, 12, 24, 23] }

/-- The static face topology table (`defineFaceRegions`). -/
structure FaceRegions where
  leftEye : List ℕ
  rightEye : List ℕ
  leftEyebrow : List ℕ
  rightEyebrow : List ℕ
  lipsOuter : List ℕ
  lipsInner : List ℕ
  faceOval : List ℕ
  noseBridge : List ℕ
  noseBottom : List ℕ
  forehead : List ℕ
  leftCheek : List ℕ
  rightCheek : List ℕ
  leftIris : List ℕ
  rightIris : List ℕ
  deriving Repr, DecidableEq

def defineFaceRegions : FaceRegions :=
  { leftEye := [33, 246, 161, 160, 159, 158, 157, 173, 133, 155, 154, 153,
                145, 144, 163, 7]
    rightEye := [362, 398, 384, 385, 386, 387, 388, 466, 263, 249, 390, 373,
                 374, 380, 381, 382]
    leftEyebrow := [70, 63, 105, 66, 107, 55, 65, 52, 53, 46]
    rightEyebrow := [300, 293, 334, 296, 336, 285, 295, 282, 283, 276]
    lipsOuter := [61, 146, 91, 181, 84, 17, 314, 405, 321, 375, 291, 409,
                  270, 269, 267, 0, 37, 39, 40, 185]
    lipsInner := [78, 95, 88, 178, 87, 14, 317, 402, 318, 324, 308, 415,
                  310, 311, 312, 13, 82, 81, 80, 191]
    faceOval := [10, 338, 297, 332, 284, 251, 389, 356, 454, 323, 361, 288,
                 397, 365, 379, 378, 400, 377, 152, 148, 176, 149, 150, 136,
                 172, 58, 132, 93, 234, 127, 162, 21, 54, 103, 67, 109]
    noseBridge := [6, 197, 195, 5, 4, 1]
    noseBottom := [98, 240, 64, 48, 115, 220, 45, 4, 275, 440, 344, 278,
                   294, 460, 327]
    forehead := [10, 338, 297, 251, 21, 54, 103, 67, 109, 108, 151, 337]
    leftCheek := [234, 93, 132, 58, 172, 136, 150, 149, 176, 148, 152]
    rightCheek := [454, 323, 361, 288, 397, 365, 379, 378, 400, 377, 152]
    leftIris := [468, 469, 470, 471, 472]
    rightIris := [473, 474, 475, 476, 477] }

/-- The `Densifier` instance state, set once by the constructor and only ever
read by the methods. -/
structure Densifier where
  bodySubdivisions : ℕ
  faceSubdivisions : ℕ
  surfaceGridSize : ℕ
  bodyConnections : BodyConnections
  faceRegions : FaceRegions
  deriving Repr, DecidableEq

/-- Constructor `new Densifier()`. -/
def Densifier.mk0 : Densifier :=
  { bodySubdivisions := 5, faceSubdivisions := 2, surfaceGridSize := 5
    bodyConnections := defineBodyConnections
    faceRegions := defineFaceRegions }

/-- Method `Densifier.lerp(p1, p2, t)`: linear blend per axis with the JS defaults
`p.z || 0` and `p.visibility || 1`; the result carries `interpolated: true`
and no other fields. -/
def lerp (p1 p2 : DPoint) (t : ℚ) : DPoint :=
  { x := p1.x + (p2.x - p1.x) * t
    y := p1.y + (p2.y - p1.y) * t
    z := some (zOr0 p1.z + (zOr0 p2.z - zOr0 p1.z) * t)
    visibility := some ((vOr1 p1.visibility + vOr1 p2.visibility) / 2)
    interpolated := true }

/-- Method `Densifier.interpolateSegment(p1, p2, subdivisions)`: the source loops
`i = 1 .. subdivisions-1` with `t = i / subdivisions`; here the loop counter
is shifted so element `i` of the list has parameter `(i+1)/subdivisions`. -/
def interpolateSegment (p1 p2 : DPoint) (subdivisions : ℕ) : List DPoint :=
  (List.range (subdivisions - 1)).map
    (fun (i : ℕ) => lerp p1 p2 (((i : ℚ) + 1) / subdivisions))

/-- Variant of `interpolateSegment` applied to possibly-missing endpoints: a missing
endpoint throws inside the first `lerp` call, which only happens when the
loop body runs (`subdivisions ≥ 2`); with at most one subdivision the loop
never runs and the empty list is returned untouched. -/
def interpolateSegmentOpt (p1 p2 : Option DPoint) (subdivisions : ℕ) :
    Option (List DPoint) :=
  match p1, p2 with
  | some q1, some q2 => some (interpolateSegment q1 q2 subdivisions)
  | _, _ => if subdivisions ≤ 1 then some [] else none

/-- Method `Densifier.interpolateSurface(corners, gridSize)` with corners
`[topLeft, topRight, bottomRight, bottomLeft]`: nested bilinear grid, each
point tagged with its `(u, v)` fraction. -/
def interpolateSurface (topLeft topRight bottomRight bottomLeft : DPoint)
    (gridSize : ℕ) : List DPoint :=
  ((List.range (gridSize + 1)).map (fun i =>
    (List.range (gridSize + 1)).map (fun j =>
      let u := (i : ℚ) / gridSize
      let v := (j : ℚ) / gridSize
      let top := lerp topLeft topRight u
      let bottom := lerp bottomLeft bottomRight u
      let point := lerp top bottom v
      { point with surfaceU := some u, surfaceV := some v }))).flatten

/-- Method `Densifier.subdivideContour(landmarks, indices, subdivisions)`: for each
consecutive (wrapping) index pair, push the original (with its
`originalIndex`) then the interpolated points. `zip` with `rotate 1` yields
exactly the pairs `(indices[i], indices[(i+1)%n])`. A missing landmark
throws inside `interpolateSegment` (every call site uses `subdivisions ≥ 1`,
so the inner call gets `subdivisions + 1 ≥ 2`), modelled as `none`. -/
def subdivideContour (landmarks : List DPoint) (indices : List ℕ)
    (subdivisions : ℕ) : Option (List DPoint) :=
  (indices.zip (indices.rotate 1)).foldl (fun acc ij =>
    match acc with
    | none => none
    | some pts =>
      match landmarks.get? ij.1, landmarks.get? ij.2 with
      | some curr, some next =>
        some (pts ++ ({ curr with originalIndex := some ij.1 } ::
                      interpolateSegment curr next (subdivisions + 1)))
      | _, _ => none) (some [])

/-- Method `Densifier.computeCentroid(landmarks, indices)`: averages of x, y,
`z || 0`; a missing landmark throws (`none`). -/
def computeCentroid (landmarks : List DPoint) (indices : List ℕ) :
    Option (ℚ × ℚ × ℚ) :=
  match indices.foldl (fun acc idx =>
    match acc, landmarks.get? idx with
    | some s, some p => some (s.1 + p.x, s.2.1 + p.y, s.2.2 + zOr0 p.z)
    | _, _ => none) (some ((0 : ℚ), (0 : ℚ), (0 : ℚ))) with
  | none => none
  | some s => some (s.1 / indices.length, s.2.1 / indices.length,
                    s.2.2 / indices.length)

/-- Method `Densifier.createDepthLayers(landmarks, indices, numLayers)`: `numLayers`
copies of the indexed points, each layer `0.02` deeper in z, layer 0 being
original. The centroid is computed (and can throw) but is unused by the
source. -/
def createDepthLayers (landmarks : List DPoint) (indices : List ℕ)
    (numLayers : ℕ) : Option (List DPoint) :=
  match computeCentroid landmarks indices with
  | none => none
  | some _ =>
    (List.range numLayers).foldl (fun acc (layer : ℕ) =>
      match acc with
      | none => none
      | some pts =>
        let depthOffset := (layer : ℚ) * 0.02
        match indices.foldl (fun acc2 idx =>
          match acc2, landmarks.get? idx with
          | some ps, some p =>
            some (ps ++ [{ x := p.x, y := p.y
                           z := some (zOr0 p.z - depthOffset)
                           visibility := some (vOr1 p.visibility)
                           depthLayer := some layer
                           interpolated := decide (0 < layer) }])
          | _, _ => none) (some []) with
        | none => none
        | some layerPts => some (pts ++ layerPts)) (some [])

/-- Shared shape of the body/hand segment loops: interpolate each segment of
the table and mark the new points (`region`, and for hands `handIndex`). -/
def segmentsOpt (lms : List DPoint) (segs : List (ℕ × ℕ)) (subs : ℕ)
    (mark : DPoint → DPoint) : Option (List DPoint) :=
  segs.foldl (fun acc seg =>
    match acc with
    | none => none
    | some pts =>
      match interpolateSegmentOpt (lms.get? seg.1) (lms.get? seg.2) subs with
      | none => none
      | some newPts => some (pts ++ newPts.map mark)) (some [])

/-- Method `Densifier.densifyBody(poseLandmarks)`: an absent group yields the empty
result; otherwise originals, arm and leg segments, the spine between the
shoulder/hip midpoints, and the torso surface grid. -/
def densifyBody (d : Densifier) (poseLandmarks : Option (List DPoint)) :
    Option GroupResult :=
  match poseLandmarks with
  | none => some { points := [], count := 0 }
  | some lms =>
    let subs := d.bodySubdivisions
    let originals := lms.enum.map (fun ip =>
      { ip.2 with originalIndex := some ip.1, region := some "body"
                  interpolated := false })
    match segmentsOpt lms (d.bodyConnections.leftArm ++
        d.bodyConnections.rightArm) subs
        (fun p => { p with region := some "arm" }) with
    | none => none
    | some armPts =>
      match segmentsOpt lms (d.bodyConnections.leftLeg ++
          d.bodyConnections.rightLeg) subs
          (fun p => { p with region := some "leg" }) with
      | none => none
      | some legPts =>
        match lms.get? 11, lms.get? 12, lms.get? 23, lms.get? 24 with
        | some leftShoulder, some rightShoulder, some leftHip,
          some rightHip =>
          let neckCenter := lerp leftShoulder rightShoulder 0.5
          let hipCenter := lerp leftHip rightHip 0.5
          let spinePoints := (interpolateSegment neckCenter hipCenter 8).map
            (fun p => { p with region := some "spine" })
          let torsoGrid := (interpolateSurface leftShoulder rightShoulder
              rightHip leftHip d.surfaceGridSize).map
            (fun p => { p with region := some "torso" })
          let pts := originals ++ armPts ++ legPts ++ spinePoints ++ torsoGrid
          some { points := pts, count := pts.length }
        | _, _, _, _ => none

/-- Tag a region name onto every point of a contour/layer batch
(`batch.forEach(p => p.region = tag)`). -/
def tagRegion (tag : String) (pts : List DPoint) : List DPoint :=
  pts.map (fun p => { p with region := some tag })

/-- Method `Densifier.densifyFace(faceLandmarks)`: originals, six subdivided
contours and the two cheek depth-layer stacks, in source push order. -/
def densifyFace (d : Densifier) (faceLandmarks : Option (List DPoint)) :
    Option GroupResult :=
  match faceLandmarks with
  | none => some { points := [], count := 0 }
  | some lms =>
    let subs := d.faceSubdivisions
    let originals := lms.enum.map (fun ip =>
      { ip.2 with originalIndex := some ip.1, region := some "face"
                  interpolated := false })
    do
      let leftEyeSubdiv ← subdivideContour lms d.faceRegions.leftEye subs
      let rightEyeSubdiv ← subdivideContour lms d.faceRegions.rightEye subs
      let leftBrowSubdiv ← subdivideContour lms d.faceRegions.leftEyebrow subs
      let rightBrowSubdiv ← subdivideContour lms d.faceRegions.rightEyebrow
        subs
      let outerLipsSubdiv ← subdivideContour lms d.faceRegions.lipsOuter subs
      let innerLipsSubdiv ← subdivideContour lms d.faceRegions.lipsInner subs
      let jawlineSubdiv ← subdivideContour lms d.faceRegions.faceOval subs
      let leftCheekLayers ← createDepthLayers lms d.faceRegions.leftCheek 3
      let rightCheekLayers ← createDepthLayers lms d.faceRegions.rightCheek 3
      let pts := originals ++
        tagRegion "leftEye" leftEyeSubdiv ++
        tagRegion "rightEye" rightEyeSubdiv ++
        tagRegion "leftEyebrow" leftBrowSubdiv ++
        tagRegion "rightEyebrow" rightBrowSubdiv ++
        tagRegion "lipsOuter" outerLipsSubdiv ++
        tagRegion "lipsInner" innerLipsSubdiv ++
        tagRegion "jawline" jawlineSubdiv ++
        tagRegion "leftCheek" leftCheekLayers ++
        tagRegion "rightCheek" rightCheekLayers
      some { points := pts, count := pts.length }

/-- The hands payload `{ landmarks, handedness }`; both fields can be
absent. `handedness[i]` is a list of classification category names. -/
structure HandsData where
  landmarks : Option (List (List DPoint))
  handedness : Option (List (List String))
  deriving Repr, DecidableEq

/-- The per-hand finger segment table of `densifyHands`. -/
def fingerConnections : List (ℕ × ℕ) :=
  [(0, 1), (1, 2), (2, 3), (3, 4),
   (0, 5), (5, 6), (6, 7), (7, 8),
   (0, 9), (9, 10), (10, 11), (11, 12),
   (0, 13), (13, 14), (14, 15), (15, 16),
   (0, 17), (17, 18), (18, 19), (19, 20)]

/-- Expression `handsData.handedness` entry 0 category name, defaulting to Unknown when falsy (an
empty category name is falsy and also falls back). -/
def handednessName (hd : Option (List (List String))) (handIdx : ℕ) :
    String :=
  match (hd.bind (fun l => l.get? handIdx)).bind (fun cats => cats.get? 0)
    with
  | none => "Unknown"
  | some s => if s = "" then "Unknown" else s

/-- Method `Densifier.densifyHands(handsData)`: absent data or absent landmark list
yields the empty result; otherwise per hand the originals then the finger
segments, with `subs = 3` subdivisions. -/
def densifyHands (handsData : Option HandsData) : Option GroupResult :=
  match handsData with
  | none => some { points := [], count := 0 }
  | some hd =>
    match hd.landmarks with
    | none => some { points := [], count := 0 }
    | some handsLms =>
      let subs := 3
      match handsLms.enum.foldl (fun acc ih =>
        match acc with
        | none => none
        | some pts =>
          let handed := handednessName hd.handedness ih.1
          let originals := ih.2.enum.map (fun ip =>
            { ip.2 with originalIndex := some ip.1
                        region := some ("hand_" ++ handed)
                        handIndex := some ih.1, interpolated := false })
          match segmentsOpt ih.2 fingerConnections subs
              (fun p => { p with region := some ("hand_" ++ handed)
                                 handIndex := some ih.1 }) with
          | none => none
          | some segPts => some (pts ++ originals ++ segPts)) (some []) with
      | none => none
      | some pts => some { points := pts, count := pts.length }

/-- Blendshape entries `{ categoryName, score }`. -/
structure Blendshape where
  categoryName : String
  score : ℚ
  deriving Repr, DecidableEq

/-- Payload `trackingResults.face`: landmark list and blendshapes, both optional. -/
structure FaceResult where
  landmarks : Option (List DPoint)
  blendshapes : Option (List Blendshape)
  deriving Repr, DecidableEq

/-- Payload `trackingResults.pose`. -/
structure PoseResult where
  landmarks : Option (List DPoint)
  deriving Repr, DecidableEq

/-- The raw tracking payload handed to `Densifier.densify`. -/
structure TrackingResults where
  face : Option FaceResult
  pose : Option PoseResult
  hands : Option HandsData
  timestamp : Option ℚ
  fps : Option ℚ
  deriving Repr, DecidableEq

/-- The dense frame `densify` returns. -/
structure DenseFrame where
  face : GroupResult
  body : GroupResult
  hands : GroupResult
  blendshapes : List Blendshape
  timestamp : Option ℚ
  fps : Option ℚ
  totalPoints : ℕ
  deriving Repr, DecidableEq

/-- Method `Densifier.densify(trackingResults)`: `null` (modelled `some none`) with
no tracking results at all, otherwise the three group results (in source
evaluation order, so the first thrown error wins) plus pass-through
metadata; the outer `none` models an escaped exception. -/
def densify (d : Densifier) (trackingResults : Option TrackingResults) :
    Option (Option DenseFrame) :=
  match trackingResults with
  | none => some none
  | some tr => do
    let face ← densifyFace d (tr.face.bind FaceResult.landmarks)
    let body ← densifyBody d (tr.pose.bind PoseResult.landmarks)
    let hands ← densifyHands tr.hands
    some (some { face := face, body := body, hands := hands
                 blendshapes := (tr.face.bind FaceResult.blendshapes).getD []
                 timestamp := tr.timestamp, fps := tr.fps
                 totalPoints := face.count + body.count + hands.count })

/-- State-threading form of `densify`: no `Densifier` method assigns to
`this`, so a call returns the instance state unchanged alongside the fresh
output. -/
def densifyStep (d : Densifier) (trackingResults : Option TrackingResults) :
    Densifier × Option (Option DenseFrame) :=
  (d, densify d trackingResults)

/-! ## The Wave Motion Engine (3DModels waveEngine module). -/

/-- A `{vx, vy, vz}` velocity record. -/
structure Velocity where
  vx : ℚ
  vy : ℚ
  vz : ℚ
  deriving Repr, DecidableEq

/-- The WaveMotionEngine configuration (constructor defaults). -/
structure WaveConfig where
  stiffness : ℚ
  damping : ℚ
  propagationSpeed : ℚ
  waveDecay : ℚ
  physicsSteps : ℕ
  deriving Repr, DecidableEq

/-- Constructor `new WaveMotionEngine({})`: the constructor defaults. -/
def waveDefaultConfig : WaveConfig :=
  { stiffness := 0.3, damping := 0.85, propagationSpeed := 0.15
    waveDecay := 0.92, physicsSteps := 2 }

/-- Method `calculateVelocity(current, previous, dt)`: zero without a previous
point, else the per-axis difference quotient (`z || 0`). -/
def calculateVelocity (current : DPoint) (previous : Option DPoint)
    (dt : ℚ) : Velocity :=
  match previous with
  | none => { vx := 0, vy := 0, vz := 0 }
  | some prev =>
    { vx := (current.x - prev.x) / dt
      vy := (current.y - prev.y) / dt
      vz := (zOr0 current.z - zOr0 prev.z) / dt }

/-- Squared velocity magnitude. The source computes
`Math.sqrt(vx*vx + vy*vy + vz*vz)` and compares it with `0.001`; both sides
being nonnegative, the comparison is equivalent to comparing this square
with `0.001 * 0.001`, which keeps the embedding inside `ℚ`. -/
def velocityMagnitudeSq (v : Velocity) : ℚ :=
  v.vx * v.vx + v.vy * v.vy + v.vz * v.vz

/-- The per-key entries of `defineBodyNetwork()` in `Object.values`
declaration order (`core` is an array, which `processBody` skips when
building its connection map): spine, left arm, right arm, left leg,
right leg chains. -/
def bodyNetworkEntries : List (ℕ × List ℕ) :=
  [(11, [12, 23]), (12, [11, 24]), (23, [11, 24, 25]), (24, [12, 23, 26]),
   (11, [13]), (13, [11, 15]), (15, [13]),
   (12, [14]), (14, [12, 16]), (16, [14]),
   (23, [25]), (25, [23, 27]), (27, [25]),
   (24, [26]), (26, [24, 28]), (28, [26])]

/-- The `connectionMap` built at the top of `processBody`: later chain
entries overwrite the spine entries for keys 11, 12, 23 and 24. -/
def buildConnectionMap : List (ℕ × List ℕ) :=
  bodyNetworkEntries.foldl (fun m e => setA m e.1 e.2) []

/-- The inner neighbor update of `propagateMotion`: read the neighbor's
accumulated velocity (zero default) and add the source velocity scaled by
the propagation factor. -/
def addScaled (propagationFactor : ℚ) (v : Velocity)
    (acc : List (ℕ × Velocity)) (neighborIdx : ℕ) : List (ℕ × Velocity) :=
  let cur := (lookupA acc neighborIdx).getD { vx := 0, vy := 0, vz := 0 }
  setA acc neighborIdx
    { vx := cur.vx + v.vx * propagationFactor
      vy := cur.vy + v.vy * propagationFactor
      vz := cur.vz + v.vz * propagationFactor }

/-- One iteration of the `velocities.forEach` loop in `propagateMotion`:
skip entries without neighbors or with velocity magnitude below `0.001`,
otherwise add the attenuated velocity to every neighbor. -/
def propagateStep (connections : List (ℕ × List ℕ))
    (propagationFactor : ℚ) (propagated : List (ℕ × Velocity))
    (entry : ℕ × Velocity) : List (ℕ × Velocity) :=
  match lookupA connections entry.1 with
  | none => propagated
  | some neighbors =>
    if velocityMagnitudeSq entry.2 < 0.001 * 0.001 then propagated
    else neighbors.foldl (addScaled propagationFactor entry.2) propagated

/-- Method `propagateMotion(points, velocities, connections, propagationFactor)`
(the source's leading `points` parameter is unused): start from a copy of
the velocity map and fold the propagation step over the original entries. -/
def propagateMotion (velocities : List (ℕ × Velocity))
    (connections : List (ℕ × List ℕ)) (propagationFactor : ℚ) :
    List (ℕ × Velocity) :=
  velocities.foldl (propagateStep connections propagationFactor) velocities

/-- The wave engine's velocity cache `this.velocities`. The source keys it
by the strings `body_<i>`; every access in the engine uses that same
constant prefix, so the cache is modelled keyed by the integer `i`. -/
abbrev VelocityCache := List (ℕ × Velocity)

/-- Componentwise damping of a retained velocity before caching. -/
def dampVelocity (damping : ℚ) (v : Velocity) : Velocity :=
  { vx := v.vx * damping, vy := v.vy * damping, vz := v.vz * damping }

/-- The `this.velocities.set` (damped velocity at key body_oi) pass of
`processBody`, one step per point: only points with an `originalIndex`, a
propagated velocity and `interpolated` false store their damped velocity. -/
def cacheStep (propagated : List (ℕ × Velocity)) (damping : ℚ)
    (c : VelocityCache) (p : DPoint) : VelocityCache :=
  match p.originalIndex with
  | none => c
  | some oi =>
    match lookupA propagated oi with
    | none => c
    | some v => if p.interpolated then c else setA c oi (dampVelocity damping v)

/-- The current-frame velocity map of `processBody`: for each point with an
`originalIndex`, the velocity against the previous frame's point at the same
array position. -/
def bodyCurrentVelocities (previousBody : Option (List DPoint))
    (points : List DPoint) (dt : ℚ) : List (ℕ × Velocity) :=
  points.enum.foldl (fun m ip =>
    match ip.2.originalIndex with
    | none => m
    | some oi =>
      setA m oi (calculateVelocity ip.2
        (previousBody.bind (fun l => l.get? ip.1)) dt)) []

/-- The propagated velocity map of `processBody`. -/
def bodyPropagated (cfg : WaveConfig) (previousBody : Option (List DPoint))
    (points : List DPoint) (dt : ℚ) : List (ℕ × Velocity) :=
  propagateMotion (bodyCurrentVelocities previousBody points dt)
    buildConnectionMap cfg.propagationSpeed

/-- Method `WaveMotionEngine.processBody(bodyPoints, dt)` threading the engine's
`previousData.body.points` and `this.velocities` cache explicitly: empty
input returns untouched; otherwise compute and propagate velocities, store
damped velocities for original points, then nudge interpolated points by the
cached velocity of the nearest original (`Math.floor(idx/5)*5`). -/
def processBody (cfg : WaveConfig) (previousBody : Option (List DPoint))
    (cache : VelocityCache) (bodyPoints : List DPoint) (dt : ℚ) :
    List DPoint × VelocityCache :=
  match bodyPoints with
  | [] => ([], cache)
  | _ =>
    let propagated := bodyPropagated cfg previousBody bodyPoints dt
    let cache1 := bodyPoints.foldl (cacheStep propagated cfg.damping) cache
    let processed := bodyPoints.enum.map (fun ip =>
      if ip.2.interpolated then
        match lookupA cache1 (ip.1 / 5 * 5) with
        | none => ip.2
        | some nearbyVelocity =>
          { ip.2 with
              x := ip.2.x + nearbyVelocity.vx * dt * 0.02
              y := ip.2.y + nearbyVelocity.vy * dt * 0.02
              z := some (zOr0 ip.2.z + nearbyVelocity.vz * dt * 0.02) }
      else ip.2)
    (processed, cache1)

/-! ## Claim theorems: Densifier. -/

/-- C3: for endpoints with explicit z and nonzero visibilities and any
subdivision count `N ≥ 1`, `interpolateSegment` yields exactly `N - 1`
points; the i-th (0-based) has parameter `t = (i+1)/N`, coordinates linearly
blended per axis, visibility the average of the endpoints' visibilities, and
`interpolated = true`. -/
theorem interpolateSegment_linear_blend
    (p1 p2 : DPoint) (N : ℕ) (hN : 1 ≤ N)
    (z1 z2 v1 v2 : ℚ) (hz1 : p1.z = some z1) (hz2 : p2.z = some z2)
    (hv1 : p1.visibility = some v1) (hv2 : p2.visibility = some v2)
    (hv1ne : v1 ≠ 0) (hv2ne : v2 ≠ 0) :
    (interpolateSegment p1 p2 N).length = N - 1 ∧
    ∀ i : ℕ, i < N - 1 →
      (interpolateSegment p1 p2 N).get? i = some
        { x := p1.x + (p2.x - p1.x) * (((i : ℚ) + 1) / N)
          y := p1.y + (p2.y - p1.y) * (((i : ℚ) + 1) / N)
          z := some (z1 + (z2 - z1) * (((i : ℚ) + 1) / N))
          visibility := some ((v1 + v2) / 2)
          interpolated := true } := by
  constructor
  · simp only [interpolateSegment, List.length_map, List.length_range]
  · intro i hi
    rw [interpolateSegment, List.get?_map, List.get?_range hi]
    simp [lerp, zOr0, hz1, hz2, vOr1, hv1, hv2, hv1ne, hv2ne]

/-- Witness input for C3. -/
def c3p1 : DPoint :=
  { x := 0, y := 0, z := some 0, visibility := some 1 }

/-- Witness input for C3. -/
def c3p2 : DPoint :=
  { x := 1, y := 2, z := some 4, visibility := some (1/2) }

/-- C3 witness: the theorem applied at concrete endpoints with `N = 4`,
checking the middle interpolated point. -/
theorem interpolateSegment_linear_blend_witness :
    (interpolateSegment c3p1 c3p2 4).length = 3 ∧
    (interpolateSegment c3p1 c3p2 4).get? 1 = some
      { x := c3p1.x + (c3p2.x - c3p1.x) * (((1 : ℚ) + 1) / 4)
        y := c3p1.y + (c3p2.y - c3p1.y) * (((1 : ℚ) + 1) / 4)
        z := some (0 + (4 - 0) * (((1 : ℚ) + 1) / 4))
        visibility := some ((1 + 1/2) / 2)
        interpolated := true } := by
  have h := interpolateSegment_linear_blend c3p1 c3p2 4 (by norm_num)
    0 4 1 (1/2) rfl rfl rfl rfl (by norm_num) (by norm_num)
  exact ⟨h.1, h.2 1 (by norm_num)⟩

/-- The concrete C4 failing input: a pose group with one landmark, so every
index the body topology tables reference is out of range. -/
def missingLandmarkPose : List DPoint := [{ x := 1/2, y := 1/2 }]

/-- C4 (code bug evidence): `densifyBody` on a group whose topology-indexed
landmarks are missing fails (the source throws a `TypeError` inside `lerp`)
instead of skipping the missing points, and the failure escapes `densify`,
so no valid frame is returned. -/
theorem densifyBody_fails_on_missing_landmark :
    densifyBody Densifier.mk0 (some missingLandmarkPose) = none ∧
    densify Densifier.mk0 (some
      { face := none, pose := some { landmarks := some missingLandmarkPose }
        hands := none, timestamp := none, fps := none }) = none := by
  constructor <;> rfl

/-- C8: each of `densifyFace`, `densifyBody`, `densifyHands` maps an absent
detector group to `{ points: [], count: 0 }` without error (including hands
data without a landmark list). -/
theorem absent_groups_yield_empty :
    densifyBody Densifier.mk0 none = some { points := [], count := 0 } ∧
    densifyFace Densifier.mk0 none = some { points := [], count := 0 } ∧
    densifyHands none = some { points := [], count := 0 } ∧
    densifyHands (some { landmarks := none, handedness := none }) =
      some { points := [], count := 0 } := by
  exact ⟨rfl, rfl, rfl, rfl⟩

/-- C9: densification writes no mutable state and is deterministic: a call
leaves the `Densifier` instance unchanged, an earlier call on any other
input does not affect a later result, and repeated calls on the same input
agree exactly (all groups, counts and coordinates). -/
theorem densify_pure_deterministic :
    ∀ (d : Densifier) (trA trB : Option TrackingResults),
      (densifyStep d trB).1 = d ∧
      (densifyStep (densifyStep d trA).1 trB).2 = (densifyStep d trB).2 ∧
      (densifyStep (densifyStep d trB).1 trB).2 = (densifyStep d trB).2 := by
  intro d trA trB
  exact ⟨rfl, rfl, rfl⟩

/-! ## Helper lemmas for the Wave Engine theorems. -/

/-- Folding neighbor additions never touches a key outside the neighbor
list. -/
theorem lookupA_fold_addScaled_not_mem (f : ℚ) (v : Velocity) :
    ∀ (ks : List ℕ) (acc : List (ℕ × Velocity)) (k : ℕ), k ∉ ks →
      lookupA (ks.foldl (addScaled f v) acc) k = lookupA acc k := by
  intro ks
  induction ks with
  | nil => intro acc k _; rfl
  | cons m rest ih =>
    intro acc k hk
    have hkm : k ≠ m := fun h => hk (h ▸ List.mem_cons_self m rest)
    rw [List.foldl_cons, ih _ _ (fun h => hk (List.mem_cons_of_mem m h))]
    exact lookupA_setA_ne _ _ _ _ hkm

/-- Folding neighbor additions over a duplicate-free neighbor list adds the
scaled velocity exactly once to each neighbor's accumulated velocity. -/
theorem lookupA_fold_addScaled_mem (f : ℚ) (v : Velocity) :
    ∀ (ks : List ℕ) (acc : List (ℕ × Velocity)), ks.Nodup →
    ∀ k ∈ ks,
      lookupA (ks.foldl (addScaled f v) acc) k =
        some { vx := ((lookupA acc k).getD { vx := 0, vy := 0, vz := 0 }).vx
                        + v.vx * f
               vy := ((lookupA acc k).getD { vx := 0, vy := 0, vz := 0 }).vy
                        + v.vy * f
               vz := ((lookupA acc k).getD { vx := 0, vy := 0, vz := 0 }).vz
                        + v.vz * f } := by
  intro ks
  induction ks with
  | nil => intro acc _ k hk; cases hk
  | cons m rest ih =>
    intro acc hnd k hk
    rcases List.mem_cons.1 hk with h | h
    · subst h
      have hnotin : k ∉ rest := (List.nodup_cons.1 hnd).1
      rw [List.foldl_cons, lookupA_fold_addScaled_not_mem f v rest _ k hnotin]
      simp [addScaled, lookupA_setA_self]
    · have hkm : k ≠ m := by
        rintro rfl; exact (List.nodup_cons.1 hnd).1 h
      rw [List.foldl_cons, ih _ (List.nodup_cons.1 hnd).2 k h]
      simp [addScaled, lookupA_setA_ne _ _ _ _ hkm]

/-- Entries below the propagation threshold leave the accumulated map
untouched. -/
theorem fold_propagateStep_skip (connections : List (ℕ × List ℕ)) (f : ℚ) :
    ∀ (l : List (ℕ × Velocity)) (acc : List (ℕ × Velocity)),
      (∀ e ∈ l, velocityMagnitudeSq e.2 < 0.001 * 0.001) →
      l.foldl (propagateStep connections f) acc = acc := by
  intro l
  induction l with
  | nil => intro acc _; rfl
  | cons e rest ih =>
    intro acc hall
    have he : velocityMagnitudeSq e.2 < 0.001 * 0.001 :=
      hall e (List.mem_cons_self e rest)
    have hstep : propagateStep connections f acc e = acc := by
      unfold propagateStep
      cases lookupA connections e.1 with
      | none => rfl
      | some ns => simp [he]
    rw [List.foldl_cons, hstep]
    exact ih acc (fun e2 h2 => hall e2 (List.mem_cons_of_mem e h2))

/-- A cache already holding the damped propagated velocity for `oi` keeps it
through the whole caching pass. -/
theorem lookupA_fold_cacheStep_preserved (prop : List (ℕ × Velocity))
    (d : ℚ) (oi : ℕ) (v : Velocity) (hv : lookupA prop oi = some v) :
    ∀ (l : List DPoint) (c : VelocityCache),
      lookupA c oi = some (dampVelocity d v) →
      lookupA (l.foldl (cacheStep prop d) c) oi = some (dampVelocity d v) := by
  intro l
  induction l with
  | nil => intro c hc; exact hc
  | cons q rest ih =>
    intro c hc
    rw [List.foldl_cons]
    apply ih
    unfold cacheStep
    split
    next => exact hc
    next oi2 hq =>
      split
      next => exact hc
      next v2 hp =>
        by_cases hi : q.interpolated
        · simpa [hi] using hc
        · by_cases hk : oi2 = oi
          · subst hk
            rw [hp] at hv
            cases hv
            simp [hi, lookupA_setA_self]
          · simp [hi, lookupA_setA_ne _ _ _ _ (fun h => hk h.symm), hc]

/-- Once some point of the pass matches `oi`, the final cache holds exactly
the damped propagated velocity for `oi`. -/
theorem lookupA_fold_cacheStep_mem (prop : List (ℕ × Velocity)) (d : ℚ) :
    ∀ (l : List DPoint) (c : VelocityCache) (p : DPoint) (oi : ℕ)
      (v : Velocity),
      p ∈ l → p.originalIndex = some oi → p.interpolated = false →
      lookupA prop oi = some v →
      lookupA (l.foldl (cacheStep prop d) c) oi = some (dampVelocity d v) := by
  intro l
  induction l with
  | nil => intro c p oi v hp; cases hp
  | cons q rest ih =>
    intro c p oi v hp hoi hint hprop
    rcases List.mem_cons.1 hp with h | h
    · subst h
      rw [List.foldl_cons]
      have hstep : cacheStep prop d c p = setA c oi (dampVelocity d v) := by
        unfold cacheStep
        rw [hoi]
        simp [hprop, hint]
      rw [hstep]
      exact lookupA_fold_cacheStep_preserved prop d oi v hprop rest _
        (lookupA_setA_self _ _ _)
    · rw [List.foldl_cons]
      exact ih _ p oi v h hoi hint hprop

/-! ## Claim theorem: Wave Engine (C7). -/

/-- C7: (1) in `propagateMotion`, a source entry whose velocity magnitude
exceeds the `0.001` threshold adds its velocity scaled by the propagation
factor to each adjacency-graph neighbor's accumulated velocity (entries
below the threshold propagate nothing); (2) in `processBody`, the velocity
cached for an original (non-interpolated) point is its propagated velocity
multiplied componentwise by the damping factor, which defaults to
`0.85 < 1`. -/
theorem wave_propagation_and_damping :
    (∀ (connections : List (ℕ × List ℕ)) (factor : ℚ) (i : ℕ)
       (v : Velocity) (rest : List (ℕ × Velocity)) (ns : List ℕ),
       lookupA connections i = some ns → ns.Nodup →
       0.001 * 0.001 < velocityMagnitudeSq v →
       (∀ e ∈ rest, velocityMagnitudeSq e.2 < 0.001 * 0.001) →
       ∀ n ∈ ns,
         lookupA (propagateMotion ((i, v) :: rest) connections factor) n =
           some { vx := ((lookupA ((i, v) :: rest) n).getD
                     { vx := 0, vy := 0, vz := 0 }).vx + v.vx * factor
                  vy := ((lookupA ((i, v) :: rest) n).getD
                     { vx := 0, vy := 0, vz := 0 }).vy + v.vy * factor
                  vz := ((lookupA ((i, v) :: rest) n).getD
                     { vx := 0, vy := 0, vz := 0 }).vz + v.vz * factor }) ∧
    (∀ (cfg : WaveConfig) (previousBody : Option (List DPoint))
       (cache : VelocityCache) (points : List DPoint) (dt : ℚ)
       (p : DPoint) (oi : ℕ) (v : Velocity),
       p ∈ points → p.originalIndex = some oi → p.interpolated = false →
       lookupA (bodyPropagated cfg previousBody points dt) oi = some v →
       lookupA (processBody cfg previousBody cache points dt).2 oi =
         some (dampVelocity cfg.damping v)) ∧
    waveDefaultConfig.damping = 0.85 ∧ waveDefaultConfig.damping < 1 := by
  refine ⟨?_, ?_, rfl, by norm_num [waveDefaultConfig]⟩
  · intro connections factor i v rest ns hconn hnd hmag hrest n hn
    unfold propagateMotion
    rw [List.foldl_cons]
    have hstep : propagateStep connections factor ((i, v) :: rest) (i, v) =
        ns.foldl (addScaled factor v) ((i, v) :: rest) := by
      unfold propagateStep
      rw [hconn]
      simp [not_lt.2 (le_of_lt hmag)]
    rw [hstep, fold_propagateStep_skip connections factor rest _ hrest]
    exact lookupA_fold_addScaled_mem factor v ns _ hnd n hn
  · intro cfg previousBody cache points dt p oi v hp hoi hint hprop
    match points, hp with
    | q :: rest, hp =>
      show lookupA ((q :: rest).foldl
        (cacheStep (bodyPropagated cfg previousBody (q :: rest) dt)
          cfg.damping) cache) oi = some (dampVelocity cfg.damping v)
      exact lookupA_fold_cacheStep_mem _ cfg.damping (q :: rest) cache p oi v
        hp hoi hint hprop

/-- Witness previous-frame point for C7. -/
def c7prev : DPoint := { x := 0, y := 0, z := some 0 }

/-- Witness current-frame point for C7 (original index 13 = left elbow). -/
def c7pt : DPoint :=
  { x := 1, y := 0, z := some 0, originalIndex := some 13
    interpolated := false }

/-- C7 witness: a unit velocity at landmark 13 propagates `0.15` of itself
to neighbor 11, and the cache stores the damped (`×0.85`) velocity. -/
theorem wave_propagation_and_damping_witness :
    lookupA (propagateMotion [((13 : ℕ), { vx := (1 : ℚ), vy := 0, vz := 0 })]
        buildConnectionMap 0.15) 11 =
      some { vx := 0.15, vy := 0, vz := 0 } ∧
    lookupA (processBody waveDefaultConfig (some [c7prev]) [] [c7pt] 1).2 13 =
      some { vx := 0.85, vy := 0, vz := 0 } := by
  have hconn : lookupA buildConnectionMap 13 = some [11, 15] := by decide
  have hbase : bodyCurrentVelocities (some [c7prev]) [c7pt] 1 =
      [((13 : ℕ), { vx := (1 : ℚ), vy := 0, vz := 0 })] := by
    norm_num [bodyCurrentVelocities, c7pt, c7prev, calculateVelocity, setA,
      zOr0]
  have hprop : lookupA (bodyPropagated waveDefaultConfig (some [c7prev])
      [c7pt] 1) 13 = some { vx := (1 : ℚ), vy := 0, vz := 0 } := by
    unfold bodyPropagated propagateMotion
    rw [hbase]
    simp only [List.foldl_cons, List.foldl_nil, propagateStep, hconn]
    rw [if_neg (by norm_num [velocityMagnitudeSq])]
    have h1 : ∀ (a : List (ℕ × Velocity)) (n : ℕ), n ≠ 13 →
        lookupA (addScaled waveDefaultConfig.propagationSpeed
          { vx := (1 : ℚ), vy := 0, vz := 0 } a n) 13 = lookupA a 13 := by
      intro a n hn
      unfold addScaled
      exact lookupA_setA_ne _ _ _ _ (fun h => hn h.symm)
    rw [h1 _ 15 (by norm_num), h1 _ 11 (by norm_num)]
    simp [lookupA]
  constructor
  · exact (wave_propagation_and_damping.1 buildConnectionMap 0.15 13
      { vx := 1, vy := 0, vz := 0 } [] [11, 15] hconn (by decide)
      (by norm_num [velocityMagnitudeSq])
      (fun e he => absurd he (List.not_mem_nil e)) 11
      (by decide)).trans (by norm_num [lookupA])
  · exact (wave_propagation_and_damping.2.1 waveDefaultConfig (some [c7prev])
      [] [c7pt] 1 c7pt 13 { vx := 1, vy := 0, vz := 0 }
      (List.mem_singleton.2 rfl) rfl rfl hprop).trans
      (by norm_num [dampVelocity, waveDefaultConfig])

/-! ## Helper lemmas for the second-observation smoothing claim (C6). -/

theorem mathPi_pos : 0 < mathPi := by norm_num [mathPi]

theorem dtOf_pos (timestamp tPrev : ℚ) : 0 < dtOf timestamp tPrev :=
  lt_of_lt_of_le (by norm_num) (le_max_right _ _)

/-- With a positive cutoff and positive dt, the smoothing coefficient lies
strictly between 0 and 1. -/
theorem alphaOf_pos_lt_one (cutoff dt : ℚ) (hc : 0 < cutoff) (hdt : 0 < dt) :
    0 < OneEuroFilter.alphaOf cutoff dt ∧
    OneEuroFilter.alphaOf cutoff dt < 1 := by
  unfold OneEuroFilter.alphaOf
  have hpi := mathPi_pos
  have htau : 0 < 1 / (2 * mathPi * cutoff) := by positivity
  have hq : 0 < 1 / (2 * mathPi * cutoff) / dt := div_pos htau hdt
  constructor
  · exact div_pos one_pos (by linarith)
  · rw [div_lt_one (by linarith)]
    linarith

/-- A simplified-estimator gain built from positive noise parameters lies
strictly between 0 and 1. -/
theorem gain_pos_lt_one (pP R : ℚ) (hp : 0 < pP) (hr : 0 < R) :
    0 < pP / (pP + R) ∧ pP / (pP + R) < 1 := by
  constructor
  · exact div_pos hp (by linarith)
  · rw [div_lt_one (by linarith)]
    linarith

/-- Exponential smoothing with a coefficient strictly inside (0,1) lands
strictly between the previous and the new value. -/
theorem lowPass_strict_between (x xPrev a : ℚ) (h0 : 0 < a) (h1 : a < 1)
    (hne : xPrev ≠ x) :
    min xPrev x < OneEuroFilter.lowPass x xPrev a ∧
    OneEuroFilter.lowPass x xPrev a < max xPrev x := by
  unfold OneEuroFilter.lowPass
  rcases lt_or_gt_of_ne hne with h | h
  · rw [min_eq_left h.le, max_eq_right h.le]
    constructor <;> nlinarith
  · rw [min_eq_right h.le, max_eq_left h.le]
    constructor <;> nlinarith

/-- Blending a point of an open interval toward an interior anchor with a
gain strictly inside (0,1) stays strictly inside the interval. -/
theorem convex_blend_strict (x1 b gain lo hi : ℚ) (h0 : 0 < gain)
    (h1 : gain < 1) (hlo : lo < b) (hhi : b < hi) (hx1lo : lo ≤ x1)
    (hx1hi : x1 ≤ hi) :
    lo < x1 + gain * (b - x1) ∧ x1 + gain * (b - x1) < hi := by
  constructor <;> nlinarith

/-- Second call of a `OneEuroFilter` whose state was seeded by a first
observation `x1` at `t1`: the output is strictly between `x1` and the new
raw value. -/
theorem OneEuroFilter.filter_second_between
    (mc b dc x1 t1 x2 t2 : ℚ) (hmc : 0 < mc) (hb : 0 ≤ b) (hne : x1 ≠ x2) :
    min x1 x2 <
      ((⟨mc, b, dc, some x1, some 0, some t1⟩ : OneEuroFilter).filter
        x2 t2).2 ∧
    ((⟨mc, b, dc, some x1, some 0, some t1⟩ : OneEuroFilter).filter
        x2 t2).2 < max x1 x2 := by
  have hdt := dtOf_pos t2 t1
  have heq : ((⟨mc, b, dc, some x1, some 0, some t1⟩ :
      OneEuroFilter).filter x2 t2).2 =
      OneEuroFilter.lowPass x2 x1 (OneEuroFilter.alphaOf
        (mc + b * |OneEuroFilter.lowPass ((x2 - x1) / dtOf t2 t1) 0
          (OneEuroFilter.alphaOf dc (dtOf t2 t1))|) (dtOf t2 t1)) := rfl
  rw [heq]
  have hcut : 0 < mc + b * |OneEuroFilter.lowPass ((x2 - x1) / dtOf t2 t1) 0
      (OneEuroFilter.alphaOf dc (dtOf t2 t1))| :=
    add_pos_of_pos_of_nonneg hmc (mul_nonneg hb (abs_nonneg _))
  obtain ⟨ha0, ha1⟩ := alphaOf_pos_lt_one _ _ hcut hdt
  exact lowPass_strict_between x2 x1 _ ha0 ha1 hne

/-- Second call of a `KalmanFilter1D` seeded by a first measurement `x1` at
`t1` (so velocity 0): the output is a gain-weighted blend of `x1` and the
incoming measurement, hence stays strictly inside any open interval that
contains the measurement strictly and `x1` weakly. -/
theorem KalmanFilter1D.update_second_between
    (q r x1 pp k0 t1 m t2 lo hi : ℚ)
    (hpq : 0 < pp + q) (hr : 0 < r)
    (hlo : lo < m) (hhi : m < hi) (hx1lo : lo ≤ x1) (hx1hi : x1 ≤ hi) :
    lo < ((⟨q, r, some x1, pp, k0, 0, some t1⟩ :
            KalmanFilter1D).update m t2).2 ∧
    ((⟨q, r, some x1, pp, k0, 0, some t1⟩ :
            KalmanFilter1D).update m t2).2 < hi := by
  have heq : ((⟨q, r, some x1, pp, k0, 0, some t1⟩ :
      KalmanFilter1D).update m t2).2 =
      (x1 + 0 * dtOf t2 t1) +
        ((pp + q) / ((pp + q) + r)) * (m - (x1 + 0 * dtOf t2 t1)) := rfl
  rw [heq]
  simp only [zero_mul, add_zero]
  obtain ⟨h0, h1⟩ := gain_pos_lt_one (pp + q) r hpq hr
  exact convex_blend_strict x1 m ((pp + q) / ((pp + q) + r)) lo hi h0 h1
    hlo hhi hx1lo hx1hi

/-- The full state of a default-config `Point3DFilter` after its first
(present-point) observation. -/
theorem Point3DFilter.fresh_state_eq (p : DPoint) (t : ℚ) :
    ((Point3DFilter.mk0 stabilizerDefaultConfig).filter (some p) t).1 =
    { euroX := ⟨0.8, 0.005, 1, some p.x, some 0, some t⟩
      euroY := ⟨0.8, 0.005, 1, some p.y, some 0, some t⟩
      euroZ := ⟨0.8, 0.005, 1, some (zOr0 p.z), some 0, some t⟩
      kalmanX := ⟨0.005, 0.05, some p.x, 1, 0, 0, some t⟩
      kalmanY := ⟨0.005, 0.05, some p.y, 1, 0, 0, some t⟩
      kalmanZ := ⟨0.005, 0.05, some (zOr0 p.z), 1, 0, 0, some t⟩
      useKalman := true
      lastPoint := some ⟨some p.x, some p.y, some (zOr0 p.z),
        vOr1 p.visibility, false⟩
      isOccluded := false, occlusionFrames := 0 } := rfl

/-- Second observation through a default-config `Point3DFilter`: the
emitted x-coordinate is strictly between the two raw x-values. -/
theorem Point3DFilter.second_x_between (p1 p2 : DPoint) (t1 t2 : ℚ)
    (hne : p1.x ≠ p2.x) :
    ∃ lp : FilteredPoint,
      ((((Point3DFilter.mk0 stabilizerDefaultConfig).filter (some p1)
          t1).1).filter (some p2) t2).2 = some lp ∧
      ∃ v : ℚ, lp.x = some v ∧ min p1.x p2.x < v ∧ v < max p1.x p2.x := by
  rw [Point3DFilter.fresh_state_eq]
  obtain ⟨he1, he2⟩ := OneEuroFilter.filter_second_between 0.8 0.005 1
    p1.x t1 p2.x t2 (by norm_num) (by norm_num) hne
  obtain ⟨hk1, hk2⟩ := KalmanFilter1D.update_second_between 0.005 0.05
    p1.x 1 0 t1
    ((((⟨0.8, 0.005, 1, some p1.x, some 0, some t1⟩ :
        OneEuroFilter)).filter p2.x t2).2) t2
    (min p1.x p2.x) (max p1.x p2.x) (by norm_num) (by norm_num) he1 he2
    (min_le_left _ _) (le_max_left _ _)
  exact ⟨_, rfl, _, rfl, hk1, hk2⟩

/-! ## Claim theorem: second-observation smoothing (C6). -/

/-- C6: a stableId observed a second time under the Stabilizer's default
configuration, with a changed raw x-value, is emitted with an x-coordinate
strictly between the first and second raw values (the smoothing coefficient
and the estimator gain both lie strictly inside (0,1)). -/
theorem second_observation_strictly_between
    (p1 p2 : DPoint) (t1 t2 : ℚ) (pre : String)
    (hid : pointId pre p2 0 = pointId pre p1 0)
    (hne : p1.x ≠ p2.x) :
    ∃ (q : SPoint) (v : ℚ),
      (stabilizePoints stabilizerDefaultConfig [p2]
        (stabilizePoints stabilizerDefaultConfig [p1] [] t1 pre).1
        t2 pre).2 = [q] ∧
      q.x = some v ∧ min p1.x p2.x < v ∧ v < max p1.x p2.x := by
  have hfm1 : (stabilizePoints stabilizerDefaultConfig [p1] [] t1 pre).1 =
      [(pointId pre p1 0,
        ((Point3DFilter.mk0 stabilizerDefaultConfig).filter (some p1)
          t1).1)] := by
    simp [stabilizePoints, stabilizeLoop, getFilter, lookupA, setA]
  obtain ⟨lp, hlp, v, hv, h1, h2⟩ :=
    Point3DFilter.second_x_between p1 p2 t1 t2 hne
  refine ⟨mkSPoint p2 lp, v, ?_, ?_, h1, h2⟩
  · rw [hfm1]
    simp [stabilizePoints, stabilizeLoop, getFilter, lookupA, hid, hlp]
  · simpa [mkSPoint] using hv

/-- Witness point for C2. -/
def c2point : DPoint :=
  { x := 1/2, y := 3/5, z := some (1/10), visibility := some 1
    originalIndex := some 0 }

/-- C2 witness: first-sample passthrough at concrete inputs. -/
theorem first_sample_passthrough_witness :
    ((OneEuroFilter.mk0 1 1 1).filter 2 3).2 = 2 ∧
    ((KalmanFilter1D.mk0 1 1).update 5 3).2 = 5 ∧
    ∃ q : SPoint,
      (stabilizePoints stabilizerDefaultConfig [c2point] [] 3 "face_").2 =
        [q] ∧
      q.x = some c2point.x ∧ q.y = some c2point.y ∧ q.z = some (1/10) := by
  have h := first_sample_passthrough (OneEuroFilter.mk0 1 1 1) 2 3 rfl
    (KalmanFilter1D.mk0 1 1) 5 rfl stabilizerDefaultConfig [] "face_"
    c2point (1/10) rfl rfl
  exact ⟨h.1, h.2.2.2.2.1, h.2.2.2.2.2.2.2⟩

/-- Witness first-frame point for C6. -/
def c6p1 : DPoint :=
  { x := 0.5, y := 0.5, z := some 0, visibility := some 1
    originalIndex := some 0 }

/-- Witness second-frame point for C6 (x moved to 0.6). -/
def c6p2 : DPoint :=
  { x := 0.6, y := 0.5, z := some 0, visibility := some 1
    originalIndex := some 0 }

/-- C6 witness: the point moved from 0.5 to 0.6 at 16.7 ms comes out
strictly between 0.5 and 0.6. -/
theorem second_observation_strictly_between_witness :
    ∃ (q : SPoint) (v : ℚ),
      (stabilizePoints stabilizerDefaultConfig [c6p2]
        (stabilizePoints stabilizerDefaultConfig [c6p1] [] 0 "face_").1
        16.7 "face_").2 = [q] ∧
      q.x = some v ∧ min c6p1.x c6p2.x < v ∧ v < max c6p1.x c6p2.x :=
  second_observation_strictly_between c6p1 c6p2 0 16.7 "face_" rfl
    (by norm_num [c6p1, c6p2])

/-! ## Occlusion handling (C1). -/

/-- C1 (amended, at the `Point3DFilter` level): with Kalman enabled, a last
emitted point and per-axis Kalman state present, filtering an absent point
increments the occlusion counter; while the counter stays at most 10 the
filter returns a predicted point (position extrapolated by the stored
velocities, synthetic visibility 0.3, `predicted = true`); once the counter
exceeds 10 the whole filter state is reset (all axes, counter zeroed, last
point dropped) and `null` is returned. -/
theorem occlusion_prediction_and_reset
    (s : Point3DFilter) (t : ℚ) (lp : FilteredPoint)
    (huk : s.useKalman = true) (hlp : s.lastPoint = some lp)
    (kx ky kz : ℚ)
    (hkx : s.kalmanX.x = some kx) (hky : s.kalmanY.x = some ky)
    (hkz : s.kalmanZ.x = some kz) :
    (s.occlusionFrames + 1 ≤ 10 →
      (s.filter none t).2 = some
        { x := some (kx + s.kalmanX.velocity *
                 dtOf t (s.kalmanX.lastTimestamp.getD 0))
          y := some (ky + s.kalmanY.velocity *
                 dtOf t (s.kalmanY.lastTimestamp.getD 0))
          z := some (kz + s.kalmanZ.velocity *
                 dtOf t (s.kalmanZ.lastTimestamp.getD 0))
          visibility := 0.3, predicted := true } ∧
      (s.filter none t).1.occlusionFrames = s.occlusionFrames + 1 ∧
      (s.filter none t).1.lastPoint = some lp) ∧
    (10 < s.occlusionFrames + 1 →
      (s.filter none t).2 = none ∧
      (s.filter none t).1 = s.reset ∧
      s.reset.occlusionFrames = 0 ∧ s.reset.lastPoint = none ∧
      s.reset.euroX.xPrev = none ∧ s.reset.euroX.dxPrev = none ∧
      s.reset.euroX.tPrev = none ∧
      s.reset.euroY.xPrev = none ∧ s.reset.euroZ.xPrev = none ∧
      s.reset.kalmanX.x = none ∧ s.reset.kalmanX.velocity = 0 ∧
      s.reset.kalmanX.P = 1 ∧ s.reset.kalmanX.lastTimestamp = none ∧
      s.reset.kalmanY.x = none ∧ s.reset.kalmanZ.x = none) := by
  constructor
  · intro h
    have hlt : ¬(10 < s.occlusionFrames + 1) := not_lt.2 h
    refine ⟨?_, ?_, ?_⟩ <;>
      simp [Point3DFilter.filter, hlt, huk, hlp, KalmanFilter1D.predict,
        hkx, hky, hkz]
  · intro h
    refine ⟨?_, ?_, ?_, ?_, ?_, ?_, ?_, ?_, ?_, ?_, ?_, ?_, ?_, ?_, ?_⟩ <;>
      simp [Point3DFilter.filter, h, Point3DFilter.reset,
        OneEuroFilter.reset, KalmanFilter1D.reset]

/-- Witness state for C1: a filter three frames into an occlusion run, with
seeded axis state. -/
def c1state : Point3DFilter :=
  { euroX := ⟨0.8, 0.005, 1, some 0.5, some 0, some 0⟩
    euroY := ⟨0.8, 0.005, 1, some 0.5, some 0, some 0⟩
    euroZ := ⟨0.8, 0.005, 1, some 0, some 0, some 0⟩
    kalmanX := ⟨0.005, 0.05, some 0.5, 1, 0, 0, some 0⟩
    kalmanY := ⟨0.005, 0.05, some 0.5, 1, 0, 0, some 0⟩
    kalmanZ := ⟨0.005, 0.05, some 0, 1, 0, 0, some 0⟩
    useKalman := true
    lastPoint := some ⟨some 0.5, some 0.5, some 0, 1, false⟩
    isOccluded := false, occlusionFrames := 3 }

/-- C1 witness: the amended occlusion theorem applied at a concrete state
(three prior misses, absent point at t = 5). -/
theorem occlusion_prediction_and_reset_witness :
    (c1state.filter none 5).2 = some
      { x := some (0.5 + 0 * dtOf 5 0), y := some (0.5 + 0 * dtOf 5 0)
        z := some (0 + 0 * dtOf 5 0), visibility := 0.3
        predicted := true } ∧
    (c1state.filter none 5).1.occlusionFrames = 4 := by
  have h := occlusion_prediction_and_reset c1state 5
    ⟨some 0.5, some 0.5, some 0, 1, false⟩ rfl rfl 0.5 0.5 0 rfl rfl rfl
  obtain ⟨h1, h2, _⟩ := h.1 (by decide)
  exact ⟨h1, h2⟩

/-- Counterexample frame-1 point 0 for C1. -/
def cePoint0 : DPoint :=
  { x := 0.5, y := 0.5, z := some 0, visibility := some 1
    originalIndex := some 0 }

/-- Counterexample frame-1 point 1 for C1 (present in frame 1 only). -/
def cePoint1 : DPoint :=
  { x := 0.25, y := 0.25, z := some 0, visibility := some 1
    originalIndex := some 1 }

/-- Counterexample frame-2 point 0 for C1. -/
def cePoint0b : DPoint :=
  { x := 0.6, y := 0.5, z := some 0, visibility := some 1
    originalIndex := some 0 }

/-- C1 counterexample (Stabilizer level): after a frame containing stableIds
0 and 1, a frame from which point 1 is absent produces an output containing
only stableId 0 — no predicted point for stableId 1 — and the filter of
stableId 1 keeps occlusion counter 0 (not incremented): `stabilizePoints`
never routes an absent point into a filter's occlusion branch. -/
theorem stabilizer_ignores_absent_points :
    ((stabilizePoints stabilizerDefaultConfig [cePoint0b]
        (stabilizePoints stabilizerDefaultConfig [cePoint0, cePoint1] []
          0 "face_").1 16.7 "face_").2.map SPoint.originalIndex =
      [some 0]) ∧
    ((lookupA (stabilizePoints stabilizerDefaultConfig [cePoint0b]
        (stabilizePoints stabilizerDefaultConfig [cePoint0, cePoint1] []
          0 "face_").1 16.7 "face_").1 "face_1").map
      Point3DFilter.occlusionFrames = some 0) := by
  have h01 : pointId "face_" cePoint0 0 ≠ pointId "face_" cePoint1 1 := by
    decide
  have h0b0 : pointId "face_" cePoint0b 0 = pointId "face_" cePoint0 0 := by
    decide
  have hfm1 : (stabilizePoints stabilizerDefaultConfig
      [cePoint0, cePoint1] [] 0 "face_").1 =
      [(pointId "face_" cePoint0 0,
        ((Point3DFilter.mk0 stabilizerDefaultConfig).filter
          (some cePoint0) 0).1),
       (pointId "face_" cePoint1 1,
        ((Point3DFilter.mk0 stabilizerDefaultConfig).filter
          (some cePoint1) 0).1)] := by
    simp [stabilizePoints, stabilizeLoop, getFilter, setA, lookupA, h01]
  obtain ⟨lp, hlp, _⟩ := Point3DFilter.filter_some_visibility
    (((Point3DFilter.mk0 stabilizerDefaultConfig).filter
      (some cePoint0) 0).1) cePoint0b (16.7 : ℚ)
  have h00b : pointId "face_" cePoint0 0 = pointId "face_" cePoint0b 0 :=
    h0b0.symm
  constructor
  · rw [hfm1]
    simp [stabilizePoints, stabilizeLoop, getFilter, lookupA, h00b, hlp,
      mkSPoint]
    decide
  · rw [hfm1]
    have hk1 : pointId "face_" cePoint1 1 = "face_1" := by decide
    have hne : pointId "face_" cePoint0b 0 ≠ "face_1" := by decide
    simp [stabilizePoints, stabilizeLoop, getFilter, lookupA, setA, h00b,
      hk1, hne, Point3DFilter.filter, Point3DFilter.mk0]

end Cam
